import Mathlib

/-
Verification of the account/account-user CRUD views in
accounts/views/base.py against their specification.

The views are shallowly embedded as pure Lean functions. Database state is a
plain list of records; framework collaborators (forms, mixins, model methods,
URL reversal) that are not part of the sources are modelled from the
specification and marked as such in their doc comments.
-/

set_option autoImplicit false

namespace Accounts

/-- An account-user record: the association between a platform user and an
Account, identified by a user id and carrying the id of its parent account. -/
structure AccountUser where
  user_id : Nat
  account_id : Nat
  username : String
  deriving DecidableEq, Repr

/-- An account (tenant/organization) entity, identified by its primary key. -/
structure Account where
  id : Nat
  deriving DecidableEq, Repr

/-- Modelled from the spec: the Account model is an external collaborator
providing users.all(); the account-users associated with an account are the
rows of the account-user table whose account_id is the id of the account. -/
def Account.users (a : Account) (db : List AccountUser) : List AccountUser :=
  db.filter (fun au => au.account_id == a.id)

/-- Modelled from the spec: Account.get_absolute_url, provided by the external
Account model, returns the detail-page URL of the account. -/
def Account.get_absolute_url (a : Account) : String :=
  "/accounts/" ++ toString a.id ++ "/"

/-- Modelled from the spec: AccountUser.get_absolute_url, provided by the
external AccountUser model, returns the detail-page URL of the account-user,
scoped under its parent account. -/
def AccountUser.get_absolute_url (au : AccountUser) : String :=
  "/accounts/" ++ toString au.account_id ++ "/users/" ++ toString au.user_id ++ "/"

/-- Modelled from the spec: the translation helper used in the Http404 message
is an out-of-scope framework artifact (spec section 9); modelled as the
identity on strings. -/
def tr (s : String) : String := s

/-- The Http404 signal raised by BaseAccountUserList.get. -/
structure Http404 where
  message : String
  deriving DecidableEq, Repr

/-- Modelled from the spec: AccountUserAddForm is an external collaborator.
is_valid is the outcome of framework form validation; the remaining fields are
the cleaned data describing the user record a valid submission creates. -/
structure AccountUserAddForm where
  is_valid : Bool
  new_user_id : Nat
  new_username : String
  deriving DecidableEq, Repr

/-- The responses the embedded views produce: a redirect, a rendered
account-user list (with its template context), or the re-rendered form that
FormView.form_invalid returns. -/
inductive Response where
  | redirect (url : String)
  | renderUserList (accountusers : List AccountUser) (account : Account)
  | formInvalid (form : AccountUserAddForm)
  deriving DecidableEq, Repr

/-- The Http404 message of BaseAccountUserList.get after percent-formatting
with the class name. -/
def http404Message (class_name : String) : String :=
  (tr "Empty list and %(class_name)s.allow_empty is False.").replace
    "%(class_name)s" class_name

/-- BaseAccountUserList.get (accounts/views/base.py lines 81-90): set
self.account to the account resolved from the route kwargs, set
self.object_list to that accounts users, and raise Http404 when allow_empty
is false and the list has length zero; otherwise render the list with the
account in the context. The account argument stands for the result of
get_account(**kwargs); allow_empty stands for get_allow_empty(). -/
def baseAccountUserList_get (allow_empty : Bool) (account : Account)
    (db : List AccountUser) : Except Http404 Response :=
  let object_list := account.users db
  if !allow_empty && object_list.length == 0 then
    Except.error ⟨http404Message "BaseAccountUserList"⟩
  else
    Except.ok (Response.renderUserList object_list account)

/-- Modelled from the spec: AccountSingleObjectMixin resolves the parent
account from the route keyword arguments (here the primary key), an external
collaborator not present in the sources; none when no account matches. -/
def get_object (accounts : List Account) (kwarg_pk : Nat) : Option Account :=
  accounts.find? (fun a => a.id == kwarg_pk)

/-- Modelled from the spec: AccountUserAddForm.save(account) creates a user
record associated with the given account, appending it to the account-user
table, and returns the created record. -/
def AccountUserAddForm.save (form : AccountUserAddForm) (account : Account)
    (db : List AccountUser) : AccountUser × List AccountUser :=
  let au : AccountUser := ⟨form.new_user_id, account.id, form.new_username⟩
  (au, db ++ [au])

/-- BaseAccountUserCreate.form_valid (lines 115-121): call form.save with
self.object (the account resolved in post), then defer to FormView.form_valid,
which redirects to get_success_url() = self.object.get_absolute_url(). Note
that self.object is never reassigned to the created account-user; it remains
the account, and the docstring says the user is returned to the account page. -/
def baseAccountUserCreate_form_valid (object : Account)
    (form : AccountUserAddForm) (db : List AccountUser) :
    Response × List AccountUser :=
  let saved := form.save object db
  (Response.redirect object.get_absolute_url, saved.2)

/-- BaseAccountUserCreate.post (lines 130-137): resolve the account from the
route kwargs into self.object, then dispatch on form.is_valid() to form_valid
or to form_invalid, which re-renders the form and leaves the table untouched;
none when the account lookup fails. -/
def baseAccountUserCreate_post (accounts : List Account) (kwarg_pk : Nat)
    (form : AccountUserAddForm) (db : List AccountUser) :
    Option (Response × List AccountUser) :=
  match get_object accounts kwarg_pk with
  | none => none
  | some object =>
    if form.is_valid then
      some (baseAccountUserCreate_form_valid object form db)
    else
      some (Response.formInvalid form, db)

/-- A concrete account used by witnesses. -/
def acctW : Account := ⟨1⟩

/-- A concrete account-user used by witnesses. -/
def auW : AccountUser := ⟨10, 1, "alice"⟩

/-- C1: For every GET request to the account-user list view, the view fails
with Http404 exactly when empty results are disallowed and the resolved
accounts user list has zero elements; when the list is non-empty or empty
results are allowed, it renders the list for that account instead. -/
theorem baseAccountUserList_get_spec (allow_empty : Bool) (account : Account)
    (db : List AccountUser) :
    ((∃ e, baseAccountUserList_get allow_empty account db = Except.error e) ↔
        (allow_empty = false ∧ (account.users db).length = 0)) ∧
      ((allow_empty = true ∨ (account.users db).length ≠ 0) →
        baseAccountUserList_get allow_empty account db =
          Except.ok (Response.renderUserList (account.users db) account)) := by
  cases allow_empty <;> by_cases hl : (account.users db).length = 0 <;>
    simp [baseAccountUserList_get, hl]

/-- Witness for C1: on a concrete account with one user and allow_empty
false, the list is rendered. -/
theorem baseAccountUserList_get_spec_witness :
    baseAccountUserList_get false acctW [auW] =
      Except.ok (Response.renderUserList (acctW.users [auW]) acctW) :=
  (baseAccountUserList_get_spec false acctW [auW]).2 (Or.inr (by decide))

/-- Modelled from the spec: AccountAddForm is an external collaborator;
is_valid is the outcome of framework form validation and new_account_id the
identity of the account a valid submission persists. -/
structure AccountAddForm where
  is_valid : Bool
  new_account_id : Nat
  deriving DecidableEq, Repr

/-- Modelled from the spec: AccountAddForm.save persists a new account scoped
to the current provider, appending it to the accounts table, and returns it. -/
def AccountAddForm.save (form : AccountAddForm) (accounts : List Account) :
    Account × List Account :=
  let a : Account := ⟨form.new_account_id⟩
  (a, accounts ++ [a])

/-- BaseAccountCreate.form_valid and get_success_url (lines 41-55): set
self.object to form.save(), then defer to FormView.form_valid, which redirects
to get_success_url() = self.object.get_absolute_url(). -/
def baseAccountCreate_form_valid (form : AccountAddForm)
    (accounts : List Account) : Response × List Account :=
  let saved := form.save accounts
  (Response.redirect saved.1.get_absolute_url, saved.2)

/-- Modelled from the spec: URL routing is an external collaborator (the
routes are not shown in the sources); reverse maps a route name to the URL of
the corresponding page. -/
def reverse (route_name : String) : String :=
  if route_name = "account_list" then "/accounts/"
  else if route_name = "accountuser_list" then "/accountusers/"
  else "/" ++ route_name ++ "/"

/-- BaseAccountDelete (lines 67-74) with DeleteView semantics: delete the
resolved account from the accounts table, then redirect to get_success_url()
= reverse("account_list"). -/
def baseAccountDelete_delete (accounts : List Account) (object : Account) :
    Response × List Account :=
  (Response.redirect (reverse "account_list"),
    accounts.filter (fun a => a.id != object.id))

/-- BaseAccountUserDelete (lines 150-157) with DeleteView semantics: delete
the resolved account-user from the account-user table, then redirect to
get_success_url() = reverse("accountuser_list"). -/
def baseAccountUserDelete_delete (db : List AccountUser)
    (object : AccountUser) : Response × List AccountUser :=
  (Response.redirect (reverse "accountuser_list"),
    db.filter (fun au => au.user_id != object.user_id))

/-- Modelled from the spec/framework: the platform user record edited by the
profile view, with the fields the view touches (username, first_name,
last_name, email, the stored password credential) plus representative other
fields for the frame condition. -/
structure User where
  id : Nat
  username : String
  first_name : String
  last_name : String
  email : String
  password : String
  is_active : Bool
  last_login : Nat
  date_joined : Nat
  deriving DecidableEq, Repr

/-- Modelled from the spec/framework: the framework hash applied to a raw
password before it is stored as the credential. -/
def hashPassword (raw : String) : String := "pbkdf2_sha256$" ++ raw

/-- Modelled from the spec/framework: User.set_password stores the hash of the
raw password as the users credential. -/
def User.set_password (u : User) (raw : String) : User :=
  { u with password := hashPassword raw }

/-- Modelled from the spec: the cleaned data of ProfileUserForm, an external
collaborator: username, first name, last name, email, an optional new
password (empty when none was submitted), and the originating page (referrer,
none when the form carried no value). -/
structure ProfileUserFormData where
  username : String
  first_name : String
  last_name : String
  email : String
  password1 : String
  referrer : Option String
  deriving DecidableEq, Repr

/-- UserProfileView.success_url (line 163), the default redirect location. -/
def userProfileView_success_url : String := "/"

/-- UserProfileView.success_redirect (lines 166-167): redirect to the referrer
when it is truthy (present and non-empty), else to success_url. -/
def userProfileView_success_redirect (referrer : Option String) : Response :=
  Response.redirect
    (match referrer with
      | none => userProfileView_success_url
      | some r => if r = "" then userProfileView_success_url else r)

/-- UserProfileView.form_valid (lines 176-188): copy username, first_name,
last_name and email from the cleaned data onto self.user, call set_password
only when password1 is truthy (non-empty), save the user, and respond with
success_redirect(referrer). Returns the saved user and the response. -/
def userProfileView_form_valid (user : User) (form : ProfileUserFormData) :
    User × Response :=
  let u1 := { user with
    username := form.username,
    first_name := form.first_name,
    last_name := form.last_name,
    email := form.email }
  let u2 := if form.password1 ≠ "" then u1.set_password form.password1 else u1
  (u2, userProfileView_success_redirect form.referrer)

/-- C2 counterexample: with the single account of id 1 resolved from the
route and a valid form creating user 2, the view redirects to the detail URL
of the account (/accounts/1/), which differs from the detail URL of the
newly created account-user (/accounts/1/users/2/); the claim that the
redirect target is the detail page of the new account-user is false here. -/
theorem baseAccountUserCreate_redirect_counterexample :
    (baseAccountUserCreate_post [⟨1⟩] 1 ⟨true, 2, "bob"⟩ []).map Prod.fst =
        some (Response.redirect (Account.get_absolute_url ⟨1⟩)) ∧
      ¬ ((baseAccountUserCreate_post [⟨1⟩] 1 ⟨true, 2, "bob"⟩ []).map Prod.fst =
        some (Response.redirect
          ((AccountUserAddForm.save ⟨true, 2, "bob"⟩ ⟨1⟩ []).1.get_absolute_url))) := by
  decide

/-- C2 (amended): for every valid account-user creation form submission, after
the new record is created the response is a redirect whose target URL is the
detail page of the parent account resolved from the route (the view keeps
self.object bound to the account and redirects to its absolute URL). -/
theorem baseAccountUserCreate_redirects_to_account (accounts : List Account)
    (kwarg_pk : Nat) (form : AccountUserAddForm) (db : List AccountUser)
    (object : Account) (hres : get_object accounts kwarg_pk = some object)
    (hv : form.is_valid = true) :
    baseAccountUserCreate_post accounts kwarg_pk form db =
      some (Response.redirect object.get_absolute_url, (form.save object db).2) := by
  simp [baseAccountUserCreate_post, hres, hv, baseAccountUserCreate_form_valid]

/-- Witness for the amended C2: a concrete valid submission against the
account of id 1 redirects to /accounts/1/. -/
theorem baseAccountUserCreate_redirects_to_account_witness :
    baseAccountUserCreate_post [⟨1⟩] 1 ⟨true, 2, "bob"⟩ [] =
      some (Response.redirect (Account.get_absolute_url ⟨1⟩),
        (AccountUserAddForm.save ⟨true, 2, "bob"⟩ ⟨1⟩ []).2) :=
  baseAccountUserCreate_redirects_to_account [⟨1⟩] 1 ⟨true, 2, "bob"⟩ []
    ⟨1⟩ (by decide) rfl

/-- C3: for every valid account-user creation form submitted against the
account resolved from the route keyword arguments, the view passes exactly
that account to form.save, and the created record is associated with it: its
account_id is the resolved accounts id and it appears among that accounts
users in the resulting table. -/
theorem baseAccountUserCreate_associates_account (accounts : List Account)
    (kwarg_pk : Nat) (form : AccountUserAddForm) (db : List AccountUser)
    (object : Account) (hres : get_object accounts kwarg_pk = some object)
    (hv : form.is_valid = true) :
    ∃ db2, baseAccountUserCreate_post accounts kwarg_pk form db =
        some (baseAccountUserCreate_form_valid object form db) ∧
      baseAccountUserCreate_form_valid object form db =
        (Response.redirect object.get_absolute_url, db2) ∧
      (form.save object db).1.account_id = object.id ∧
      (form.save object db).1 ∈ object.users db2 := by
  refine ⟨(form.save object db).2, ?_, rfl, rfl, ?_⟩
  · simp [baseAccountUserCreate_post, hres, hv]
  · simp [AccountUserAddForm.save, Account.users, List.mem_filter]

/-- Witness for C3: a concrete valid submission against the account of id 3
creates the account-user with account_id 3, listed among that accounts users. -/
theorem baseAccountUserCreate_associates_account_witness :
    ∃ db2, baseAccountUserCreate_post [⟨3⟩] 3 ⟨true, 7, "carol"⟩ [] =
        some (baseAccountUserCreate_form_valid ⟨3⟩ ⟨true, 7, "carol"⟩ []) ∧
      baseAccountUserCreate_form_valid ⟨3⟩ ⟨true, 7, "carol"⟩ [] =
        (Response.redirect (Account.get_absolute_url ⟨3⟩), db2) ∧
      (AccountUserAddForm.save ⟨true, 7, "carol"⟩ ⟨3⟩ []).1.account_id =
        Account.id ⟨3⟩ ∧
      (AccountUserAddForm.save ⟨true, 7, "carol"⟩ ⟨3⟩ []).1 ∈
        Account.users ⟨3⟩ db2 :=
  baseAccountUserCreate_associates_account [⟨3⟩] 3 ⟨true, 7, "carol"⟩ []
    ⟨3⟩ (by decide) rfl

/-- C10: for every POST to the account-user creation view whose form is
invalid, the account-user table is returned unchanged (form.save is never
reached) and the response is the form-invalid re-render. -/
theorem baseAccountUserCreate_invalid_unchanged (accounts : List Account)
    (kwarg_pk : Nat) (form : AccountUserAddForm) (db : List AccountUser)
    (object : Account) (hres : get_object accounts kwarg_pk = some object)
    (hinv : form.is_valid = false) :
    baseAccountUserCreate_post accounts kwarg_pk form db =
      some (Response.formInvalid form, db) := by
  simp [baseAccountUserCreate_post, hres, hinv]

/-- Witness for C10: a concrete invalid submission against the account of
id 5 leaves the one-row table unchanged and re-renders the form. -/
theorem baseAccountUserCreate_invalid_unchanged_witness :
    baseAccountUserCreate_post [⟨5⟩] 5 ⟨false, 9, "dave"⟩ [auW] =
      some (Response.formInvalid ⟨false, 9, "dave"⟩, [auW]) :=
  baseAccountUserCreate_invalid_unchanged [⟨5⟩] 5 ⟨false, 9, "dave"⟩ [auW]
    ⟨5⟩ (by decide) rfl

/-- C6: for every valid account-creation form submission, the saved account is
persisted in the resulting accounts table and the success URL of the redirect
response is the absolute URL (detail page) of that saved account. -/
theorem baseAccountCreate_persists_and_redirects (form : AccountAddForm)
    (accounts : List Account) (_hv : form.is_valid = true) :
    (form.save accounts).1 ∈ (baseAccountCreate_form_valid form accounts).2 ∧
      (baseAccountCreate_form_valid form accounts).1 =
        Response.redirect (form.save accounts).1.get_absolute_url := by
  constructor
  · simp [baseAccountCreate_form_valid, AccountAddForm.save]
  · rfl

/-- Witness for C6: a concrete valid submission creating the account of id 4
stores it and redirects to /accounts/4/. -/
theorem baseAccountCreate_persists_and_redirects_witness :
    (AccountAddForm.save ⟨true, 4⟩ []).1 ∈
        (baseAccountCreate_form_valid ⟨true, 4⟩ []).2 ∧
      (baseAccountCreate_form_valid ⟨true, 4⟩ []).1 =
        Response.redirect (AccountAddForm.save ⟨true, 4⟩ []).1.get_absolute_url :=
  baseAccountCreate_persists_and_redirects ⟨true, 4⟩ [] rfl

/-- C7: for every successful account deletion, the response redirects to the
URL reversed from the account_list route, independent of which account was
deleted and of the table state. -/
theorem baseAccountDelete_success_url (accounts accounts2 : List Account)
    (object object2 : Account) :
    (baseAccountDelete_delete accounts object).1 =
        Response.redirect (reverse "account_list") ∧
      (baseAccountDelete_delete accounts object).1 =
        (baseAccountDelete_delete accounts2 object2).1 :=
  ⟨rfl, rfl⟩

/-- C8: for every successful account-user deletion, the response redirects to
the URL reversed from the accountuser_list route, independent of which
account-user was deleted and of its parent account. -/
theorem baseAccountUserDelete_success_url (db db2 : List AccountUser)
    (object object2 : AccountUser) :
    (baseAccountUserDelete_delete db object).1 =
        Response.redirect (reverse "accountuser_list") ∧
      (baseAccountUserDelete_delete db object).1 =
        (baseAccountUserDelete_delete db2 object2).1 :=
  ⟨rfl, rfl⟩

/-- C4: for every valid profile form submission, the saved user carries the
submitted username, first name, last name and email, and its stored credential
is the hash of the submitted password when that password is non-empty and the
previous credential when it is empty. -/
theorem userProfileView_form_valid_updates_fields (user : User)
    (form : ProfileUserFormData) :
    ((userProfileView_form_valid user form).1.username = form.username ∧
      (userProfileView_form_valid user form).1.first_name = form.first_name ∧
      (userProfileView_form_valid user form).1.last_name = form.last_name ∧
      (userProfileView_form_valid user form).1.email = form.email) ∧
      (userProfileView_form_valid user form).1.password =
        (if form.password1 = "" then user.password
          else hashPassword form.password1) := by
  unfold userProfileView_form_valid User.set_password
  by_cases h : form.password1 = "" <;> simp [h]

/-- C5: for every valid profile form submission, the response redirects to the
referrer carried in the form when that value is non-empty, and to the default
location / when it is empty or absent. -/
theorem userProfileView_redirects_to_referrer (user : User)
    (form : ProfileUserFormData) :
    ((form.referrer = none ∨ form.referrer = some "") →
        (userProfileView_form_valid user form).2 = Response.redirect "/") ∧
      (∀ r, form.referrer = some r → r ≠ "" →
        (userProfileView_form_valid user form).2 = Response.redirect r) := by
  constructor
  · rintro (h | h) <;>
      simp [userProfileView_form_valid, userProfileView_success_redirect, h,
        userProfileView_success_url]
  · intro r hr hne
    simp [userProfileView_form_valid, userProfileView_success_redirect, hr, hne]

/-- A concrete user record used by witnesses. -/
def userW : User := ⟨7, "u", "f", "l", "e", "pw", true, 0, 0⟩

/-- Witness for C5: a concrete submission with an absent referrer redirects
to /, and one with referrer /back/ redirects to /back/. -/
theorem userProfileView_redirects_to_referrer_witness :
    (userProfileView_form_valid userW ⟨"u2", "f2", "l2", "e2", "", none⟩).2 =
        Response.redirect "/" ∧
      (userProfileView_form_valid userW
          ⟨"u2", "f2", "l2", "e2", "", some "/back/"⟩).2 =
        Response.redirect "/back/" :=
  ⟨(userProfileView_redirects_to_referrer userW
      ⟨"u2", "f2", "l2", "e2", "", none⟩).1 (Or.inl rfl),
    (userProfileView_redirects_to_referrer userW
      ⟨"u2", "f2", "l2", "e2", "", some "/back/"⟩).2 "/back/" rfl (by decide)⟩

/-- C9: for every valid profile form submission, every field of the user
record other than username, first name, last name, email and the credential
is unchanged by the update, and the credential itself is unchanged when the
submitted password is empty. -/
theorem userProfileView_form_valid_frame (user : User)
    (form : ProfileUserFormData) :
    (userProfileView_form_valid user form).1.id = user.id ∧
      (userProfileView_form_valid user form).1.is_active = user.is_active ∧
      (userProfileView_form_valid user form).1.last_login = user.last_login ∧
      (userProfileView_form_valid user form).1.date_joined = user.date_joined ∧
      (form.password1 = "" →
        (userProfileView_form_valid user form).1.password = user.password) := by
  unfold userProfileView_form_valid User.set_password
  by_cases h : form.password1 = "" <;> simp [h]

/-- Witness for C9: a concrete submission with an empty password leaves the
id, activity flag, timestamps and credential of the user unchanged. -/
theorem userProfileView_form_valid_frame_witness :
    (userProfileView_form_valid userW ⟨"a", "b", "c", "d", "", some "/x/"⟩).1.id
        = userW.id ∧
      (userProfileView_form_valid userW
        ⟨"a", "b", "c", "d", "", some "/x/"⟩).1.password = userW.password :=
  ⟨(userProfileView_form_valid_frame userW
      ⟨"a", "b", "c", "d", "", some "/x/"⟩).1,
    (userProfileView_form_valid_frame userW
      ⟨"a", "b", "c", "d", "", some "/x/"⟩).2.2.2.2 rfl⟩

end Accounts
